import Mathlib

/-!
Verification of the lenr.academy ingestion/rebuild pipeline (Python scripts
under `scripts/`) against its natural-language specification.

Each Python function the claims depend on is shallowly embedded as an
executable Lean definition:
  * `verify_db.py`   : the Verifier's checks over a rebuilt store
                       (`check1`, `check6`, `check7`);
  * `parse_html_tables.py` : the HTML source reader, glob resolution and
                       multi-file merging (`combineFiles`, `parse_multi_file_table`);
  * `extract_data.py` / `convert_excel_to_sql.py` : the spreadsheet
                       canonicalizer's row filters;
  * `create_db.py`   : the bootstrap loader (`load_fusion_data`,
                       `populate_elements`, `create_db_main`);
  * `rebuild_db.py`  : the rebuild orchestrator (`delete_database`,
                       `loadCsvE`, `rebuild_main`).

SQL queries are embedded with their SQLite semantics: `UNION` deduplicates,
`x NOT IN (...)` and `x IN (...)` follow three-valued logic on NULLs
(a NULL comparand never satisfies the predicate), `INSERT OR IGNORE` on a
primary-key column keeps the first row per key, and
`INTEGER PRIMARY KEY AUTOINCREMENT` hands out `max used id + 1`.
Python's `float` on the decimal numerals occurring in the CSVs is embedded
as an exact rational parse (`pyFloat`); `int(...)` on such a value truncates
toward zero, which `q.num.tdiv q.den` models exactly.
-/

/-! ### Row types of the rebuilt store, as the Verifier sees them

`rebuild_db.py` declares every reaction-table column nullable, so every
cell the Verifier reads is an `Option`.  Only the columns that
`verify_db.py` ever mentions are carried. -/

/-- A `FusionAll` row restricted to the columns `verify_db.py` queries
(`E1`, `A1`, `E2`, `A2`, `E`, `A`, `MeV`, `neutrino`). -/
structure VFusionRow where
  E1 : Option String
  A1 : Option Int
  E2 : Option String
  A2 : Option Int
  E : Option String
  A : Option Int
  MeV : Option String
  neutrino : Option String
deriving DecidableEq

/-- A `FissionAll` row restricted to its element-symbol columns
(`E`, `E1`, `E2`). -/
structure VFissionRow where
  E : Option String
  E1 : Option String
  E2 : Option String
deriving DecidableEq

/-- A `TwoToTwoAll` row restricted to its element-symbol columns
(`E1`, `E2`, `E3`, `E4`). -/
structure VTwoToTwoRow where
  E1 : Option String
  E2 : Option String
  E3 : Option String
  E4 : Option String
deriving DecidableEq

/-- An `ElementPropertiesPlus` row restricted to the columns the Verifier
uses: the `Z` primary key and the `E` symbol column. -/
structure VElemPropRow where
  Z : Int
  E : Option String
deriving DecidableEq

/-- The rebuilt store as `verify_db.py` queries it. -/
structure VerifyStore where
  fusionAll : List VFusionRow
  fissionAll : List VFissionRow
  twoToTwoAll : List VTwoToTwoRow
  elementPropertiesPlus : List VElemPropRow
deriving DecidableEq

/-- SQLite `x NOT IN (list)` under three-valued logic, kept only when TRUE:
a NULL `x` never satisfies it, and a NULL inside the list keeps every
non-member comparison UNKNOWN. -/
def sqlNotIn (x : Option String) (l : List (Option String)) : Bool :=
  match x with
  | none => false
  | some s =>
    if (some s) ∈ l then false
    else if (none : Option String) ∈ l then false
    else true

/-- The deduplicated union `SELECT E1 FROM FusionAll UNION SELECT E2 ...
UNION SELECT E ...` of check 1 of `verify_db.py`. -/
def fusionSymbolUnion (t : List VFusionRow) : List (Option String) :=
  ((t.map (·.E1)) ++ (t.map (·.E2)) ++ (t.map (·.E))).dedup

/-- Check 1 of `verify_db.py`: the element symbols it reports as invalid.
The SQL keeps the distinct `FusionAll` participant symbols that are
`NOT IN (SELECT E FROM ElementPropertiesPlus)`; the trailing `ORDER BY E`
only affects report order, not which symbols are reported. -/
def check1 (db : VerifyStore) : List (Option String) :=
  (fusionSymbolUnion db.fusionAll).filter
    (fun e => sqlNotIn e (db.elementPropertiesPlus.map (·.E)))

/-- The `IN ('Н', 'Не')` test of check 6 of `verify_db.py` on one symbol
cell (NULL satisfies no `IN`). -/
def isCyrHNe (e : Option String) : Bool :=
  e = some "Н" || e = some "Не"

/-- Check 6 of `verify_db.py`: `SELECT COUNT(*) FROM FusionAll WHERE E1 IN
('Н','Не') OR E2 IN ('Н','Не') OR E IN ('Н','Не')`. -/
def check6 (db : VerifyStore) : Nat :=
  (db.fusionAll.filter (fun r => isCyrHNe r.E1 || isCyrHNe r.E2 || isCyrHNe r.E)).length

/-- The `LIKE '%*%'` test of check 7 of `verify_db.py` on one symbol cell:
the cell's text contains an asterisk character (NULL satisfies no
`LIKE`). -/
def hasAsterisk (e : Option String) : Bool :=
  match e with
  | none => false
  | some s => s.data.contains '*'

/-- Check 7 of `verify_db.py`: `SELECT COUNT(*) FROM FusionAll WHERE E1
LIKE '%*%' OR E2 LIKE '%*%' OR E LIKE '%*%'`. -/
def check7 (db : VerifyStore) : Nat :=
  (db.fusionAll.filter (fun r => hasAsterisk r.E1 || hasAsterisk r.E2 || hasAsterisk r.E)).length

/-! ### Source reader: `parse_html_tables.py`

A file either parses to `some (headers, dataRows)` or — when its HTML
carries no `results` table — to `none` (the Python returns `(None, None)`
and the multi-file loop `continue`s past it).  The file system visible to
the scripts is a list of named entries. -/

/-- One HTML file as the reader sees it: its name and the outcome of
`parse_html_table` on it. -/
structure FileEntry where
  name : String
  parsed : Option (List String × List (List String))
deriving DecidableEq

/-- The mutable state of the loop in `parse_multi_file_table`:
`all_headers`, `all_rows`, and the names for which a header-mismatch
WARNING has been printed. -/
structure MergeAcc where
  allHeaders : Option (List String)
  allRows : List (List String)
  warnings : List String
deriving DecidableEq

/-- One iteration of the loop of `parse_multi_file_table`
(`parse_html_tables.py` lines 58-74): an unparsed file is skipped; the
first parsed file fixes `all_headers`; a later file whose header differs
adds a warning but its rows are still appended, never realigned. -/
def mergeStep (acc : MergeAcc) (f : FileEntry) : MergeAcc :=
  match f.parsed with
  | none => acc
  | some (headers, rows) =>
    let acc1 :=
      match acc.allHeaders with
      | none => { acc with allHeaders := some headers }
      | some h =>
        if h = headers then acc
        else { acc with warnings := acc.warnings ++ [f.name] }
    if rows.isEmpty then acc1
    else { acc1 with allRows := acc1.allRows ++ rows }

/-- The whole loop of `parse_multi_file_table` over an already resolved
file list. -/
def combineFiles (files : List FileEntry) : MergeAcc :=
  files.foldl mergeStep ⟨none, [], []⟩

/-- The data rows a file contributes to the combined result (none if it
did not parse). -/
def parsedRows (f : FileEntry) : List (List String) :=
  match f.parsed with
  | none => []
  | some (_, rows) => rows

/-- All data rows of a file list, in file order. -/
def rowsJoined (files : List FileEntry) : List (List String) :=
  (files.map parsedRows).flatten

/-- The names of the parsed files whose header differs from `h1`, in file
order: the WARNING lines the loop prints once `all_headers = h1`. -/
def mismatchNames (h1 : List String) (files : List FileEntry) : List String :=
  (files.filter (fun f =>
    match f.parsed with
    | none => false
    | some (h, _) => decide (h ≠ h1))).map (·.name)

/-- `sorted(glob.glob(pattern))` of `parse_multi_file_table`: the names in
the file system that match the pattern, in lexicographic order. -/
def resolvedNames (fs : List FileEntry) (pat : String → Bool) : List String :=
  List.insertionSort (· ≤ ·) ((fs.map (·.name)).filter pat)

/-- `parse_multi_file_table(pattern)`: resolve the glob; zero matches
return the empty result `(None, None)` (no rows, no warnings) without
raising; otherwise run the merge loop over the matched files in sorted
order. -/
def parse_multi_file_table (fs : List FileEntry) (pat : String → Bool) : MergeAcc :=
  let files := resolvedNames fs pat
  if files.isEmpty then ⟨none, [], []⟩
  else combineFiles ((files.filterMap (fun n => fs.find? (fun f => f.name = n))))

/-- Opening a single source file: Python's `open` raises
`FileNotFoundError` — the fatal `SourceNotFound` of the spec — when the
path names no file. -/
def openFile (fs : List FileEntry) (path : String) : Except String FileEntry :=
  match fs.find? (fun f => f.name = path) with
  | some f => .ok f
  | none => .error ("SourceNotFound: " ++ path)

/-- `parse_html_table(path)` on a named single-file source: fatal when the
file is missing, otherwise the file's parse outcome. -/
def parse_html_table_run (fs : List FileEntry) (path : String) :
    Except String (Option (List String × List (List String))) :=
  (openFile fs path).map (·.parsed)

/-- The caller's `if headers and rows:` guard in `main` of
`parse_html_tables.py`: a CSV is written only when headers are present and
non-empty and at least one data row exists; otherwise the table is skipped
and the run continues. -/
def shouldWrite (acc : MergeAcc) : Bool :=
  match acc.allHeaders with
  | none => false
  | some h => !h.isEmpty && !acc.allRows.isEmpty

/-! ### Numeric field conversion: `int(float(s))` and `float(s)`

`create_db.py` converts mass-number and proton-number cells with
`int(float(...))` and energy cells with `float(...)`.  On the plain
decimal numerals the CSVs contain, Python's `float` is embedded exactly as
a rational number (the numerals are short enough that no float64 rounding
is relevant to any claim below); a string that is not such a numeral
raises `ValueError`, embedded as `none`. -/

/-- Decimal digit test. -/
def isDigitCh (c : Char) : Bool := '0' ≤ c && c ≤ '9'

/-- The value of a digit string, most significant first. -/
def digitsVal (cs : List Char) : Nat :=
  cs.foldl (fun n c => 10 * n + (c.toNat - 48)) 0

/-- An unsigned Python decimal numeral: digits with at most one point and
at least one digit overall (`"7"`, `"1.5"`, `"3."`, `".25"`).  The value
of `ip.fp` is `digitsVal (ip ++ fp) / 10 ^ |fp|`, i.e.
`ip + fp / 10 ^ |fp|`, built with `mkRat` directly. -/
def parseUnsigned (cs : List Char) : Option ℚ :=
  match cs.splitOn '.' with
  | [ds] =>
    if ds.isEmpty || !ds.all isDigitCh then none
    else some (mkRat (digitsVal ds) 1)
  | [ip, fp] =>
    if (ip.isEmpty && fp.isEmpty) || !ip.all isDigitCh || !fp.all isDigitCh then none
    else some (mkRat (digitsVal (ip ++ fp)) (10 ^ fp.length))
  | _ => none

/-- Python `float(s)` on the decimal numerals of the source CSVs: an
optional sign followed by an unsigned numeral; anything else raises
`ValueError` (`none`). -/
def pyFloat (s : String) : Option ℚ :=
  match s.data with
  | [] => none
  | '+' :: rest => parseUnsigned rest
  | '-' :: rest => (parseUnsigned rest).map (fun q => -q)
  | cs => parseUnsigned cs

/-- Python `int(x)` on a real value truncates toward zero. -/
def pyTrunc (q : ℚ) : ℤ :=
  q.num.tdiv (q.den : ℤ)

/-- The conversion `int(float(s))` applied to every integer-valued column
(mass number, proton number) in `create_db.py`. -/
def loadIntField (s : String) : Option ℤ :=
  (pyFloat s).map pyTrunc

/-- The conversion `float(s)` applied to every real-valued column (`MeV`)
in `create_db.py`. -/
def loadRealField (s : String) : Option ℚ :=
  pyFloat s

/-! ### Bootstrap loader: `create_db.py`

The CSV rows `csv.DictReader` yields are embedded as structures of the
named string cells each loader reads.  The three reaction tables have an
`INTEGER PRIMARY KEY AUTOINCREMENT` surrogate key: an `AutoTable` carries
its rows paired with their assigned ids and the next id to hand out
(`1` on a freshly created table). -/

/-- One row of `src/data/fusion.csv` as `load_fusion_data` reads it. -/
structure FusionCsvRow where
  E1 : String
  A1 : String
  Z1 : String
  E2 : String
  A2 : String
  Z2 : String
  E : String
  A : String
  Z : String
  MeV : String
deriving DecidableEq

/-- One row of `src/data/fission.csv` as `load_fission_data` reads it. -/
structure FissionCsvRow where
  E : String
  A : String
  Z : String
  E1 : String
  A1 : String
  Z1 : String
  E2 : String
  A2 : String
  Z2 : String
  MeV : String
deriving DecidableEq

/-- One row of `src/data/twotwo.csv` as `load_twotwo_data` reads it. -/
structure TwoTwoCsvRow where
  E1 : String
  A1 : String
  Z1 : String
  E2 : String
  A2 : String
  Z2 : String
  E3 : String
  A3 : String
  Z3 : String
  E4 : String
  A4 : String
  Z4 : String
  MeV : String
deriving DecidableEq

/-- A `FusionAll` row as `create_db.py` inserts it: converted participant
fields plus the literal defaults `'none'`, `'b'`, …, `0` of the INSERT. -/
structure FusionDataRow where
  E1 : String
  Z1 : ℤ
  A1 : ℤ
  E2 : String
  Z2 : ℤ
  A2 : ℤ
  E : String
  Z : ℤ
  A : ℤ
  MeV : ℚ
  neutrino : String
  nBorF1 : String
  aBorF1 : String
  nBorF2 : String
  aBorF2 : String
  nBorF : String
  aBorF : String
  BEin : ℚ
deriving DecidableEq

/-- A `FissionAll` row as `create_db.py` inserts it. -/
structure FissionDataRow where
  E : String
  Z : ℤ
  A : ℤ
  E1 : String
  Z1 : ℤ
  A1 : ℤ
  E2 : String
  Z2 : ℤ
  A2 : ℤ
  MeV : ℚ
  neutrino : String
  nBorF : String
  aBorF : String
  nBorF1 : String
  aBorF1 : String
  nBorF2 : String
  aBorF2 : String
  BEin : ℚ
deriving DecidableEq

/-- A `TwoToTwoAll` row as `create_db.py` inserts it. -/
structure TwoTwoDataRow where
  E1 : String
  Z1 : ℤ
  A1 : ℤ
  E2 : String
  Z2 : ℤ
  A2 : ℤ
  E3 : String
  Z3 : ℤ
  A3 : ℤ
  E4 : String
  Z4 : ℤ
  A4 : ℤ
  MeV : ℚ
  neutrino : String
  nBorF1 : String
  aBorF1 : String
  nBorF2 : String
  aBorF2 : String
  nBorF3 : String
  aBorF3 : String
  nBorF4 : String
  aBorF4 : String
  BEin : ℚ
deriving DecidableEq

/-- A table with an `INTEGER PRIMARY KEY AUTOINCREMENT` surrogate key:
rows with their ids, plus the next id to assign. -/
structure AutoTable (ρ : Type) where
  rows : List (Nat × ρ)
  nextId : Nat
deriving DecidableEq

/-- A freshly created, empty `AutoTable`: ids start at 1. -/
def AutoTable.empty {ρ : Type} : AutoTable ρ := ⟨[], 1⟩

/-- One `INSERT` into an `AutoTable`: the row is appended with the next
id, which `cursor.lastrowid` then reports. -/
def autoInsert {ρ : Type} (t : AutoTable ρ) (d : ρ) : AutoTable ρ :=
  ⟨t.rows ++ [(t.nextId, d)], t.nextId + 1⟩

/-- The shared loop shape of the three `load_*_data` functions of
`create_db.py`: convert each CSV row in order and insert it; a `ValueError`
from a numeric conversion (`conv r = none`) aborts the whole load
(`none`); the second component is `cursor.lastrowid` after the loop
(`none` when nothing was inserted), which the function prints as the
loaded count. -/
def loadDataLoop {σ ρ : Type} (conv : σ → Option ρ)
    (t : AutoTable ρ) (csv : List σ) : Option (AutoTable ρ × Option Nat) :=
  csv.foldl
    (fun acc r =>
      match acc with
      | none => none
      | some (tb, _) =>
        match conv r with
        | none => none
        | some d => some (autoInsert tb d, some tb.nextId))
    (some (t, none))

/-- The value tuple of the `INSERT INTO FusionAll` of `load_fusion_data`:
symbols pass through, `Z`/`A` fields go through `int(float(...))`, `MeV`
through `float(...)`, and the flag columns receive the literal defaults. -/
def convertFusionRow (r : FusionCsvRow) : Option FusionDataRow := do
  let z1 ← loadIntField r.Z1
  let a1 ← loadIntField r.A1
  let z2 ← loadIntField r.Z2
  let a2 ← loadIntField r.A2
  let z ← loadIntField r.Z
  let a ← loadIntField r.A
  let mev ← loadRealField r.MeV
  pure { E1 := r.E1, Z1 := z1, A1 := a1, E2 := r.E2, Z2 := z2, A2 := a2,
         E := r.E, Z := z, A := a, MeV := mev,
         neutrino := "none", nBorF1 := "b", aBorF1 := "b",
         nBorF2 := "b", aBorF2 := "b", nBorF := "b", aBorF := "b", BEin := 0 }

/-- The value tuple of the `INSERT INTO FissionAll` of `load_fission_data`. -/
def convertFissionRow (r : FissionCsvRow) : Option FissionDataRow := do
  let z ← loadIntField r.Z
  let a ← loadIntField r.A
  let z1 ← loadIntField r.Z1
  let a1 ← loadIntField r.A1
  let z2 ← loadIntField r.Z2
  let a2 ← loadIntField r.A2
  let mev ← loadRealField r.MeV
  pure { E := r.E, Z := z, A := a, E1 := r.E1, Z1 := z1, A1 := a1,
         E2 := r.E2, Z2 := z2, A2 := a2, MeV := mev,
         neutrino := "none", nBorF := "b", aBorF := "b",
         nBorF1 := "b", aBorF1 := "b", nBorF2 := "b", aBorF2 := "b", BEin := 0 }

/-- The value tuple of the `INSERT INTO TwoToTwoAll` of `load_twotwo_data`. -/
def convertTwoTwoRow (r : TwoTwoCsvRow) : Option TwoTwoDataRow := do
  let z1 ← loadIntField r.Z1
  let a1 ← loadIntField r.A1
  let z2 ← loadIntField r.Z2
  let a2 ← loadIntField r.A2
  let z3 ← loadIntField r.Z3
  let a3 ← loadIntField r.A3
  let z4 ← loadIntField r.Z4
  let a4 ← loadIntField r.A4
  let mev ← loadRealField r.MeV
  pure { E1 := r.E1, Z1 := z1, A1 := a1, E2 := r.E2, Z2 := z2, A2 := a2,
         E3 := r.E3, Z3 := z3, A3 := a3, E4 := r.E4, Z4 := z4, A4 := a4,
         MeV := mev, neutrino := "none",
         nBorF1 := "b", aBorF1 := "b", nBorF2 := "b", aBorF2 := "b",
         nBorF3 := "b", aBorF3 := "b", nBorF4 := "b", aBorF4 := "b", BEin := 0 }

/-- `load_fusion_data` of `create_db.py`: load `src/data/fusion.csv` into
`FusionAll`, reporting `cursor.lastrowid` as the loaded count. -/
def load_fusion_data (t : AutoTable FusionDataRow) (csv : List FusionCsvRow) :
    Option (AutoTable FusionDataRow × Option Nat) :=
  loadDataLoop convertFusionRow t csv

/-- `load_fission_data` of `create_db.py`. -/
def load_fission_data (t : AutoTable FissionDataRow) (csv : List FissionCsvRow) :
    Option (AutoTable FissionDataRow × Option Nat) :=
  loadDataLoop convertFissionRow t csv

/-- `load_twotwo_data` of `create_db.py`. -/
def load_twotwo_data (t : AutoTable TwoTwoDataRow) (csv : List TwoTwoCsvRow) :
    Option (AutoTable TwoTwoDataRow × Option Nat) :=
  loadDataLoop convertTwoTwoRow t csv

/-- A row of the bootstrap `ElementsPlus` table as `populate_elements`
inserts it: `(Z, E, EName, Period, Group) = (z, e, e, 1, 1)`, with `Z` the
`INTEGER PRIMARY KEY`. -/
structure ElementsPlusRow where
  Z : ℤ
  E : String
  EName : String
  Period : ℤ
  Group : ℤ
deriving DecidableEq

/-- One `INSERT OR IGNORE INTO ElementsPlus` keyed on the `Z` primary key:
when a row with this `Z` already exists, the insert is silently dropped. -/
def insert_or_ignore_element (t : List ElementsPlusRow) (z : ℤ) (e : String) :
    List ElementsPlusRow :=
  if t.any (fun r => r.Z = z) then t else t ++ [⟨z, e, e, 1, 1⟩]

/-- The insertion loop of `populate_elements` over the fetched distinct
`(E, Z)` pairs. -/
def populate_elements (t : List ElementsPlusRow) (pairs : List (String × ℤ)) :
    List ElementsPlusRow :=
  pairs.foldl (fun acc p => insert_or_ignore_element acc p.2 p.1) t

/-- The bootstrap store `create_db.py` builds: the three reaction tables
with their surrogate keys and the `ElementsPlus` table.  The script also
declares a `NuclidesPlus` table but never writes to it, so it is not
carried. -/
structure CreateStore where
  fusionAll : AutoTable FusionDataRow
  fissionAll : AutoTable FissionDataRow
  twoToTwoAll : AutoTable TwoTwoDataRow
  elementsPlus : List ElementsPlusRow
deriving DecidableEq

/-- The store right after `CREATE TABLE ...` on a database file that did
not exist before: every table empty, every surrogate key at 1. -/
def emptyCreateStore : CreateStore :=
  ⟨AutoTable.empty, AutoTable.empty, AutoTable.empty, []⟩

/-- The `SELECT DISTINCT E, Z FROM (... UNION ...) ORDER BY Z` of
`populate_elements`: every participant `(symbol, proton-number)` pair of
the three reaction tables, deduplicated and ordered by `Z` (ties kept in
union order, one of the orders SQLite may return). -/
def reactionElementPairs (s : CreateStore) : List (String × ℤ) :=
  List.insertionSort (fun a b => a.2 ≤ b.2)
    (((s.fusionAll.rows.map (fun p => (p.2.E1, p.2.Z1)))
      ++ (s.fusionAll.rows.map (fun p => (p.2.E2, p.2.Z2)))
      ++ (s.fusionAll.rows.map (fun p => (p.2.E, p.2.Z)))
      ++ (s.fissionAll.rows.map (fun p => (p.2.E, p.2.Z)))
      ++ (s.fissionAll.rows.map (fun p => (p.2.E1, p.2.Z1)))
      ++ (s.fissionAll.rows.map (fun p => (p.2.E2, p.2.Z2)))
      ++ (s.twoToTwoAll.rows.map (fun p => (p.2.E1, p.2.Z1)))
      ++ (s.twoToTwoAll.rows.map (fun p => (p.2.E2, p.2.Z2)))
      ++ (s.twoToTwoAll.rows.map (fun p => (p.2.E3, p.2.Z3)))
      ++ (s.twoToTwoAll.rows.map (fun p => (p.2.E4, p.2.Z4)))).dedup)

/-- The CSV inputs of one `create_db.py` run. -/
structure CreateInputs where
  fusionCsv : List FusionCsvRow
  fissionCsv : List FissionCsvRow
  twotwoCsv : List TwoTwoCsvRow
deriving DecidableEq

/-- `main` of `create_db.py`: `sqlite3.connect` opens the existing
database file when there is one (`prev = some s`) and creates a fresh one
otherwise; `create_tables` uses `CREATE TABLE IF NOT EXISTS`, so existing
tables — rows included — are kept; the three loads then append, and
`populate_elements` fills `ElementsPlus` from the loaded reaction data.
No step deletes anything.  A `ValueError` in a load aborts the run
(`none`). -/
def create_db_main (prev : Option CreateStore) (inputs : CreateInputs) :
    Option CreateStore := do
  let s0 := prev.getD emptyCreateStore
  let (fu, _) ← load_fusion_data s0.fusionAll inputs.fusionCsv
  let (fi, _) ← load_fission_data s0.fissionAll inputs.fissionCsv
  let (tt, _) ← load_twotwo_data s0.twoToTwoAll inputs.twotwoCsv
  let s1 : CreateStore :=
    { fusionAll := fu, fissionAll := fi, twoToTwoAll := tt,
      elementsPlus := s0.elementsPlus }
  pure { s1 with elementsPlus := populate_elements s1.elementsPlus (reactionElementPairs s1) }

/-! ### Rebuild orchestrator: `rebuild_db.py`

`import_csv` inserts every data row of a CSV verbatim — empty cells
become NULL, everything else stays text; no numeric conversion happens on
this path.  Binding a row whose cell count differs from the header's
raises (`sqlite3` refuses the parameter binding), aborting the rebuild. -/

/-- A CSV intermediate file: its header row and its data rows. -/
structure Csv where
  header : List String
  rows : List (List String)
deriving DecidableEq

/-- The cell conversion of `import_csv`: the empty string becomes NULL,
any other cell is kept as text. -/
def csvCell (c : String) : Option String :=
  if c = "" then none else some c

/-- `import_csv` of `rebuild_db.py` on one table: each data row is
converted and inserted in order; a row whose arity differs from the
header's fails the parameter binding and aborts.  Returns the table's rows
together with `rows_imported`, the count the function prints. -/
def loadCsvE (csv : Csv) : Except String (List (List (Option String)) × Nat) :=
  csv.rows.foldlM
    (fun acc r =>
      if r.length = csv.header.length then
        .ok (acc.1 ++ [r.map csvCell], acc.2 + 1)
      else
        .error "parameter binding arity mismatch")
    (([] : List (List (Option String))), 0)

/-- The CSV sources of one `rebuild_db.py` run, one per entry of `TABLES`. -/
structure RebuildInputs where
  fusionAll : Csv
  fissionAll : Csv
  twoToTwoAll : Csv
  nuclidesPlus : Csv
  elementPropertiesPlus : Csv
  atomicRadii : Csv
  radioNuclides : Csv
deriving DecidableEq

/-- The store `rebuild_db.py` builds: one row list per entry of `TABLES`,
cells nullable text exactly as inserted. -/
structure RebuildStore where
  fusionAll : List (List (Option String))
  fissionAll : List (List (Option String))
  twoToTwoAll : List (List (Option String))
  nuclidesPlus : List (List (Option String))
  elementPropertiesPlus : List (List (Option String))
  atomicRadii : List (List (Option String))
  radioNuclides : List (List (Option String))
deriving DecidableEq

/-- `delete_database` of `rebuild_db.py`: if the store file exists it is
unlinked, otherwise nothing happens — either way no store file remains. -/
def delete_database (s : Option RebuildStore) : Option RebuildStore :=
  match s with
  | some _ => none
  | none => none

/-- `sqlite3.connect` followed by `create_tables` on the rebuild path: on
a fresh file the plain `CREATE TABLE` statements produce empty tables; on
a file that still holds the previous store they raise
`table ... already exists`. -/
def create_tables_fresh (s : Option RebuildStore) : Except String RebuildStore :=
  match s with
  | none => .ok ⟨[], [], [], [], [], [], []⟩
  | some _ => .error "table FusionAll already exists"

/-- `main` of `rebuild_db.py`: delete the existing database, create the
schema afresh, then import every table's CSV in `TABLES` order, each
appending its rows to the (empty) table just created.  Index and view
creation do not change any row set and are not carried. -/
def rebuild_main (prev : Option RebuildStore) (inputs : RebuildInputs) :
    Except String RebuildStore := do
  let s0 ← create_tables_fresh (delete_database prev)
  let fu ← loadCsvE inputs.fusionAll
  let fi ← loadCsvE inputs.fissionAll
  let tt ← loadCsvE inputs.twoToTwoAll
  let nu ← loadCsvE inputs.nuclidesPlus
  let ep ← loadCsvE inputs.elementPropertiesPlus
  let ar ← loadCsvE inputs.atomicRadii
  let rn ← loadCsvE inputs.radioNuclides
  pure { fusionAll := s0.fusionAll ++ fu.1,
         fissionAll := s0.fissionAll ++ fi.1,
         twoToTwoAll := s0.twoToTwoAll ++ tt.1,
         nuclidesPlus := s0.nuclidesPlus ++ nu.1,
         elementPropertiesPlus := s0.elementPropertiesPlus ++ ep.1,
         atomicRadii := s0.atomicRadii ++ ar.1,
         radioNuclides := s0.radioNuclides ++ rn.1 }

/-! ### Canonicalizer: `extract_data.py` and `convert_excel_to_sql.py`

Both scripts read the `Fus_Fis` sheet, slice the fusion table from
columns 0-9 and the fission table from columns 12-21 of the *same*
physical rows, and drop rows via `dropna(subset=...)`.  A pandas cell is
either a value or NaN; NaN is embedded as `none`. -/

/-- One physical row of the `Fus_Fis` sheet after `skiprows=6`: the fusion
slice (columns 0-9), the two separator columns, and the fission slice
(columns 12-21). -/
structure FusFisRaw where
  fE1 : Option String
  fA1 : Option String
  fZ1 : Option String
  fE2 : Option String
  fA2 : Option String
  fZ2 : Option String
  fE : Option String
  fA : Option String
  fZ : Option String
  fMeV : Option String
  sep10 : Option String
  sep11 : Option String
  gE : Option String
  gA : Option String
  gZ : Option String
  gE1 : Option String
  gA1 : Option String
  gZ1 : Option String
  gE2 : Option String
  gA2 : Option String
  gZ2 : Option String
  gMeV : Option String
deriving DecidableEq

/-- The fusion slice `df.iloc[:, 0:10]` renamed to
`['E1','A1','Z1','E2','A2','Z2','E','A','Z','MeV']`. -/
structure FusionRaw where
  E1 : Option String
  A1 : Option String
  Z1 : Option String
  E2 : Option String
  A2 : Option String
  Z2 : Option String
  E : Option String
  A : Option String
  Z : Option String
  MeV : Option String
deriving DecidableEq

/-- The fission slice `df.iloc[:, 12:22]` renamed to
`['E','A','Z','E1','A1','Z1','E2','A2','Z2','MeV']`. -/
structure FissionRaw where
  E : Option String
  A : Option String
  Z : Option String
  E1 : Option String
  A1 : Option String
  Z1 : Option String
  E2 : Option String
  A2 : Option String
  Z2 : Option String
  MeV : Option String
deriving DecidableEq

/-- Column slice 0-9 of a physical row. -/
def fusionSlice (r : FusFisRaw) : FusionRaw :=
  ⟨r.fE1, r.fA1, r.fZ1, r.fE2, r.fA2, r.fZ2, r.fE, r.fA, r.fZ, r.fMeV⟩

/-- Column slice 12-21 of a physical row. -/
def fissionSlice (r : FusFisRaw) : FissionRaw :=
  ⟨r.gE, r.gA, r.gZ, r.gE1, r.gA1, r.gZ1, r.gE2, r.gA2, r.gZ2, r.gMeV⟩

/-- `process_fusion_fission` of `extract_data.py`: slice both tables from
the same physical rows; keep a fusion row iff `dropna(subset=['E1','MeV'])`
keeps it, a fission row iff `dropna(subset=['E','MeV'])` keeps it.  No
other column is checked. -/
def process_fusion_fission (rows : List FusFisRaw) :
    List FusionRaw × List FissionRaw :=
  ((rows.map fusionSlice).filter (fun r => r.E1.isSome && r.MeV.isSome),
   (rows.map fissionSlice).filter (fun r => r.E.isSome && r.MeV.isSome))

/-- `extract_fusion_data` of `convert_excel_to_sql.py`: the same fusion
slice, kept iff `dropna(subset=['E1','E2','E','MeV'])` keeps it — the
element symbols and the energy, but no `A`/`Z` column. -/
def extract_fusion_data (rows : List FusFisRaw) : List FusionRaw :=
  (rows.map fusionSlice).filter
    (fun r => r.E1.isSome && r.E2.isSome && r.E.isSome && r.MeV.isSome)

/-- `extract_fission_data` of `convert_excel_to_sql.py`: the fission
slice, kept iff `dropna(subset=['E','E1','E2','MeV'])` keeps it. -/
def extract_fission_data (rows : List FusFisRaw) : List FissionRaw :=
  (rows.map fissionSlice).filter
    (fun r => r.E.isSome && r.E1.isSome && r.E2.isSome && r.MeV.isSome)

/-! ### Helper lemmas -/

/-- For a symbol list without NULLs, `NOT IN` degenerates to plain
non-membership. -/
theorem sqlNotIn_some_eq_true (s : String) (l : List (Option String))
    (hnn : (none : Option String) ∉ l) :
    (sqlNotIn (some s) l = true) ↔ some s ∉ l := by
  by_cases h1 : (some s) ∈ l
  · simp [sqlNotIn, h1]
  · by_cases h2 : (none : Option String) ∈ l
    · exact absurd h2 hnn
    · simp [sqlNotIn, h1, h2]

/-! ### Claim C1 — referential-completeness check -/

/-- A store whose only unresolved element symbol sits in `FissionAll`:
`FusionAll` is empty and the Element table is empty. -/
def c1Db : VerifyStore where
  fusionAll := []
  fissionAll := [⟨some "Xx", some "H", some "H"⟩]
  twoToTwoAll := []
  elementPropertiesPlus := []

/-- Claim C1, refuted: the symbol `Xx` appears in a participant column of
the reaction table `FissionAll` and does not occur in the Element table,
yet check 1 of `verify_db.py` reports nothing — the check reads only
`FusionAll`, so a missing symbol is *not* reported regardless of which
reaction table it appears in. -/
theorem c1_counterexample :
    check1 c1Db = []
    ∧ some "Xx" ∈ c1Db.fissionAll.map (·.E)
    ∧ (c1Db.elementPropertiesPlus.map (·.E)).contains (some "Xx") = false := by
  decide

/-- Claim C1 as amended: the referential-completeness check considers
exactly the distinct symbols of the `E1`, `E2` and `E` columns of
`FusionAll` and (for an Element table whose symbol column has no NULLs)
reports exactly those among them that do not occur in the Element table's
symbol column; symbols appearing only in `FissionAll` or `TwoToTwoAll`
are never considered. -/
theorem c1_amended_check (db : VerifyStore) (s : String)
    (hnn : (none : Option String) ∉ db.elementPropertiesPlus.map (·.E)) :
    some s ∈ check1 db ↔
      ((some s ∈ db.fusionAll.map (·.E1) ∨ some s ∈ db.fusionAll.map (·.E2)
          ∨ some s ∈ db.fusionAll.map (·.E))
        ∧ some s ∉ db.elementPropertiesPlus.map (·.E)) := by
  unfold check1 fusionSymbolUnion
  rw [List.mem_filter, sqlNotIn_some_eq_true _ _ hnn, List.mem_dedup]
  simp only [List.mem_append]
  tauto

/-- A store on which the amended C1 reports the one bad `FusionAll`
symbol. -/
def c1WDb : VerifyStore where
  fusionAll := [⟨some "Qq", some 1, some "H", some 1, some "He", some 2,
                 some "1.0", some "none"⟩]
  fissionAll := []
  twoToTwoAll := []
  elementPropertiesPlus := [⟨1, some "H"⟩, ⟨2, some "He"⟩]

/-- The amended C1 at a concrete store: `Qq` is a `FusionAll` participant
symbol absent from the Element table, and check 1 reports it. -/
theorem c1_amended_witness :
    (none : Option String) ∉ c1WDb.elementPropertiesPlus.map (·.E)
    ∧ some "Qq" ∈ check1 c1WDb :=
  ⟨by decide,
   (c1_amended_check c1WDb "Qq" (by decide)).mpr (by decide)⟩

/-! ### Claim C9 — character-hygiene checks -/

/-- A store with a non-target-alphabet symbol `Ы` in a `FusionAll`
participant column and the Cyrillic symbol `Н` in a `FissionAll` column. -/
def c9Db : VerifyStore where
  fusionAll := [⟨some "Ы", some 1, some "H", some 1, some "He", some 2,
                 some "1.0", some "none"⟩]
  fissionAll := [⟨some "Н", some "H", some "H"⟩]
  twoToTwoAll := []
  elementPropertiesPlus := []

/-- Claim C9, refuted: the hygiene checks of `verify_db.py` count nothing
on this store, although a `FusionAll` symbol column holds the
non-target-alphabet character `Ы` (not one of the two literals
`Н`/`Не` the check looks for) and a `FissionAll` symbol column holds the
Cyrillic `Н` (the checks never read `FissionAll` or `TwoToTwoAll`). -/
theorem c9_counterexample :
    check6 c9Db = 0
    ∧ check7 c9Db = 0
    ∧ some "Ы" ∈ c9Db.fusionAll.map (·.E1)
    ∧ some "Н" ∈ c9Db.fissionAll.map (·.E) := by
  decide

/-- Claim C9 as amended: the hygiene checks examine only `FusionAll`, and
there only the two Cyrillic literals `Н`/`Не` (check 6) and the footnote
asterisk (check 7): check 6 reports zero iff no `FusionAll` symbol column
equals one of those two literals, and check 7 reports zero iff no
`FusionAll` symbol column contains an asterisk. -/
theorem c9_amended_checks (db : VerifyStore) :
    (check6 db = 0 ↔ ∀ r ∈ db.fusionAll,
        isCyrHNe r.E1 = false ∧ isCyrHNe r.E2 = false ∧ isCyrHNe r.E = false)
    ∧ (check7 db = 0 ↔ ∀ r ∈ db.fusionAll,
        hasAsterisk r.E1 = false ∧ hasAsterisk r.E2 = false ∧ hasAsterisk r.E = false) := by
  constructor
  · rw [check6, List.length_eq_zero, List.filter_eq_nil_iff]
    simp [and_assoc]
  · rw [check7, List.length_eq_zero, List.filter_eq_nil_iff]
    simp [and_assoc]

/-! ### Claim C4 — canonicalizer row filtering -/

/-- A `Fus_Fis` physical row whose fusion slice has a null mass number
`A1` but non-null element symbols and energy. -/
def c4Row : FusFisRaw where
  fE1 := some "H"
  fA1 := none
  fZ1 := some "1"
  fE2 := some "H"
  fA2 := some "2"
  fZ2 := some "1"
  fE := some "H"
  fA := some "3"
  fZ := some "1"
  fMeV := some "5.494"
  sep10 := none
  sep11 := none
  gE := some "U"
  gA := some "235"
  gZ := some "92"
  gE1 := some "Ba"
  gA1 := some "141"
  gZ1 := some "56"
  gE2 := some "Kr"
  gA2 := some "92"
  gZ2 := some "36"
  gMeV := some "173.0"

/-- Claim C4, refuted: the mass number `A1` of the first participant — a
key column under the claim — is null, yet the row is retained by the
canonicalizers of both scripts (`extract_data.py` checks only
`['E1','MeV']`, `convert_excel_to_sql.py` only `['E1','E2','E','MeV']`);
no `A`/`Z` column is ever part of the null filter. -/
theorem c4_counterexample :
    (fusionSlice c4Row).A1 = none
    ∧ fusionSlice c4Row ∈ (process_fusion_fission [c4Row]).1
    ∧ fusionSlice c4Row ∈ extract_fusion_data [c4Row] := by
  decide

/-- Claim C4 as amended: a fusion row is retained by
`process_fusion_fission` iff its `E1` and `MeV` cells are non-null, a
fission row iff its `E` and `MeV` cells are; `extract_fusion_data` and
`extract_fission_data` additionally require the remaining element
symbols, but no mass-number or proton-number cell is ever checked — a row
with nulls confined to unchecked columns is retained with those nulls. -/
theorem c4_amended_filter (rows : List FusFisRaw) (r : FusionRaw) (g : FissionRaw) :
    (r ∈ (process_fusion_fission rows).1 ↔
       r ∈ rows.map fusionSlice ∧ r.E1.isSome ∧ r.MeV.isSome)
    ∧ (g ∈ (process_fusion_fission rows).2 ↔
       g ∈ rows.map fissionSlice ∧ g.E.isSome ∧ g.MeV.isSome)
    ∧ (r ∈ extract_fusion_data rows ↔
       r ∈ rows.map fusionSlice
         ∧ r.E1.isSome ∧ r.E2.isSome ∧ r.E.isSome ∧ r.MeV.isSome)
    ∧ (g ∈ extract_fission_data rows ↔
       g ∈ rows.map fissionSlice
         ∧ g.E.isSome ∧ g.E1.isSome ∧ g.E2.isSome ∧ g.MeV.isSome) := by
  refine ⟨?_, ?_, ?_, ?_⟩ <;>
    simp [process_fusion_fission, extract_fusion_data, extract_fission_data,
      List.mem_filter, and_assoc]

/-! ### Claim C5 — header mismatch is a warning, rows still appended -/

/-- Unfolding `rowsJoined` over a cons. -/
theorem rowsJoined_cons (f : FileEntry) (fs : List FileEntry) :
    rowsJoined (f :: fs) = parsedRows f ++ rowsJoined fs := by
  simp [rowsJoined]

/-- Unfolding `mismatchNames` over a cons. -/
theorem mismatchNames_cons (h1 : List String) (f : FileEntry) (fs : List FileEntry) :
    mismatchNames h1 (f :: fs) =
      (match f.parsed with
        | none => []
        | some (h, _) => if h = h1 then [] else [f.name]) ++ mismatchNames h1 fs := by
  unfold mismatchNames
  cases hf : f.parsed with
  | none => simp [List.filter_cons, hf]
  | some pr =>
    obtain ⟨h, rows⟩ := pr
    by_cases hh : h = h1 <;> simp [List.filter_cons, hf, hh]

/-- Once `all_headers` is fixed at `h1`, the rest of the loop keeps it,
appends every later file's rows in file order, and warns exactly on the
parsed files whose header differs from `h1`. -/
theorem foldl_mergeStep_fixed (files : List FileEntry) (h1 : List String)
    (R : List (List String)) (W : List String) :
    files.foldl mergeStep ⟨some h1, R, W⟩ =
      ⟨some h1, R ++ rowsJoined files, W ++ mismatchNames h1 files⟩ := by
  induction files generalizing R W with
  | nil => simp [rowsJoined, mismatchNames]
  | cons f fs ih =>
    have hstep : mergeStep ⟨some h1, R, W⟩ f =
        ⟨some h1, R ++ parsedRows f,
         W ++ (match f.parsed with
                | none => []
                | some (h, _) => if h = h1 then [] else [f.name])⟩ := by
      cases hf : f.parsed with
      | none => simp [mergeStep, hf, parsedRows]
      | some pr =>
        obtain ⟨h, rows⟩ := pr
        by_cases hh : h1 = h
        · subst hh
          cases hr : rows.isEmpty
          · simp [mergeStep, hf, parsedRows, hr]
          · simp_all [mergeStep, parsedRows, List.isEmpty_iff]
        · have hh2 : ¬h = h1 := fun he => hh he.symm
          cases hr : rows.isEmpty
          · simp [mergeStep, hf, parsedRows, hr, hh, hh2]
          · simp_all [mergeStep, parsedRows, List.isEmpty_iff, hh2]
    rw [List.foldl_cons, hstep, ih, rowsJoined_cons, mismatchNames_cons,
      List.append_assoc, List.append_assoc]

/-- Claim C5, confirmed: once the first parsed file of a group fixes the
header, every later file's data rows — including those of files whose
header differs — are appended to the combined result in file order; a
differing header only adds that file's name to the warnings, the output
header stays the first file's, and columns are never realigned.  The
merge is a total function: it never raises or aborts. -/
theorem c5_header_mismatch_rows_kept (f0 : FileEntry) (h1 : List String)
    (r0 : List (List String)) (rest : List FileEntry)
    (hf : f0.parsed = some (h1, r0)) :
    combineFiles (f0 :: rest) =
      ⟨some h1, r0 ++ rowsJoined rest, mismatchNames h1 rest⟩ := by
  unfold combineFiles
  rw [List.foldl_cons]
  have hstep0 : mergeStep ⟨none, [], []⟩ f0 = ⟨some h1, r0, []⟩ := by
    cases hr : r0.isEmpty
    · simp [mergeStep, hf, hr]
    · have : r0 = [] := List.isEmpty_iff.mp hr
      simp [mergeStep, hf, this]
  rw [hstep0, foldl_mergeStep_fixed, List.nil_append]

/-- First fragment file of a multi-file group. -/
def c5FileA : FileEntry :=
  ⟨"two_to_two_table_1.html", some (["E1", "A1"], [["H", "1"]])⟩

/-- Second fragment file, with a drifted header. -/
def c5FileB : FileEntry :=
  ⟨"two_to_two_table_2.html", some (["E1", "A"], [["He", "4"]])⟩

/-- C5 at a concrete two-file group whose second header drifted: the
merge keeps the first header, appends both files' rows, and records one
warning. -/
theorem c5_witness :
    combineFiles [c5FileA, c5FileB] =
      ⟨some ["E1", "A1"], [["H", "1"]] ++ rowsJoined [c5FileB],
       mismatchNames ["E1", "A1"] [c5FileB]⟩ :=
  c5_header_mismatch_rows_kept c5FileA ["E1", "A1"] [["H", "1"]] [c5FileB] rfl

/-! ### Claim C7 — empty glob is an empty source, missing file is fatal -/

/-- Claim C7, confirmed: the glob is resolved to a lexicographically
sorted name list (first conjunct, for any pattern); when zero files match
the pattern, `parse_multi_file_table` returns the empty result — a value,
not an exception — and the caller's `if headers and rows:` guard skips
the write and moves on, whereas a missing single-file source fails with
the fatal `SourceNotFound`. -/
theorem c7_empty_glob_vs_missing_file (fs fs2 : List FileEntry)
    (pat pat2 : String → Bool) (path : String)
    (hpat : ∀ f ∈ fs, pat f.name = false)
    (hpath : ∀ f ∈ fs, f.name ≠ path) :
    (resolvedNames fs2 pat2).Sorted (· ≤ ·)
    ∧ parse_multi_file_table fs pat = ⟨none, [], []⟩
    ∧ shouldWrite (parse_multi_file_table fs pat) = false
    ∧ parse_html_table_run fs path = .error ("SourceNotFound: " ++ path) := by
  have hres : resolvedNames fs pat = [] := by
    unfold resolvedNames
    have : (fs.map (·.name)).filter pat = [] := by
      rw [List.filter_eq_nil_iff]
      intro n hn
      obtain ⟨f, hf, rfl⟩ := List.mem_map.mp hn
      simp [hpat f hf]
    rw [this]
    rfl
  have hmulti : parse_multi_file_table fs pat = ⟨none, [], []⟩ := by
    unfold parse_multi_file_table
    rw [hres]
    rfl
  refine ⟨?_, hmulti, ?_, ?_⟩
  · exact List.sorted_insertionSort _ _
  · rw [hmulti]; rfl
  · unfold parse_html_table_run openFile
    have : fs.find? (fun f => f.name = path) = none := by
      rw [List.find?_eq_none]
      intro f hf
      simp [hpath f hf]
    rw [this]
    rfl

/-- A file system holding only single-file sources. -/
def c7Fs : List FileEntry :=
  [⟨"fusion_table.html", some (["E1"], [["H"]])⟩]

/-- A file system whose names arrive unsorted. -/
def c7Fs2 : List FileEntry :=
  [⟨"two_to_two_table_2.html", none⟩, ⟨"two_to_two_table_1.html", none⟩]

/-- C7 at concrete inputs: no file matches the two-to-two glob, so the
group is an empty source and nothing is written, while opening the absent
`fission_table.html` is the fatal `SourceNotFound`. -/
theorem c7_witness :
    (resolvedNames c7Fs2 (fun _ => true)).Sorted (· ≤ ·)
    ∧ parse_multi_file_table c7Fs (fun n => n == "two_to_two_all_table_1.html") =
        ⟨none, [], []⟩
    ∧ shouldWrite (parse_multi_file_table c7Fs
        (fun n => n == "two_to_two_all_table_1.html")) = false
    ∧ parse_html_table_run c7Fs "fission_table.html" =
        .error ("SourceNotFound: " ++ "fission_table.html") :=
  c7_empty_glob_vs_missing_file c7Fs c7Fs2
    (fun n => n == "two_to_two_all_table_1.html") (fun _ => true)
    "fission_table.html" (by decide) (by decide)

/-! ### Claim C2 — rebuild is idempotent -/

/-- `delete_database` leaves no store behind, whatever was there. -/
theorem delete_database_eq_none (p : Option RebuildStore) :
    delete_database p = none := by
  cases p <;> rfl

/-- Claim C2, confirmed: the rebuilt store is a function of the CSV
inputs alone — the pre-existing store never influences it — so a second
rebuild on identical inputs reproduces the first store exactly, table by
table, row for row and in the same order. -/
theorem c2_rebuild_idempotent (p1 p2 : Option RebuildStore)
    (inputs : RebuildInputs) (s : RebuildStore)
    (h : rebuild_main p1 inputs = .ok s) :
    rebuild_main p2 inputs = rebuild_main p1 inputs
    ∧ rebuild_main (some s) inputs = .ok s := by
  have hind : ∀ p : Option RebuildStore,
      rebuild_main p inputs = rebuild_main none inputs := by
    intro p
    unfold rebuild_main
    simp only [delete_database_eq_none]
  exact ⟨(hind p2).trans (hind p1).symm, (hind (some s)).trans ((hind p1).symm.trans h)⟩

/-- A one-row CSV shared by all seven tables of the witness inputs. -/
def c2Csv : Csv := ⟨["c1", "c2"], [["v", ""]]⟩

/-- Concrete rebuild inputs. -/
def c2In : RebuildInputs := ⟨c2Csv, c2Csv, c2Csv, c2Csv, c2Csv, c2Csv, c2Csv⟩

/-- The store both rebuild runs must produce on `c2In`. -/
def c2Store : RebuildStore :=
  ⟨[[some "v", none]], [[some "v", none]], [[some "v", none]], [[some "v", none]],
   [[some "v", none]], [[some "v", none]], [[some "v", none]]⟩

/-- C2 at concrete inputs: rebuilding over the store the first run
produced yields that same store again. -/
theorem c2_witness :
    rebuild_main none c2In = .ok c2Store
    ∧ (rebuild_main (some c2Store) c2In = rebuild_main none c2In
       ∧ rebuild_main (some c2Store) c2In = .ok c2Store) :=
  ⟨rfl, c2_rebuild_idempotent none (some c2Store) c2In c2Store rfl⟩

/-! ### Claim C3 — delete-before-rebuild -/

/-- A fusion CSV with one well-formed reaction row. -/
def c3FusionCsv : List FusionCsvRow :=
  [⟨"H", "1", "1", "H", "2", "1", "H", "3", "1", "5.494"⟩]

/-- Inputs for a `create_db.py` run: one fusion row, nothing else. -/
def c3In : CreateInputs := ⟨c3FusionCsv, [], []⟩

/-- Claim C3, refuted on the `create_db.py` path its sources cite: `main`
of `create_db.py` never deletes the pre-existing store — it connects to
whatever file is there and `CREATE TABLE IF NOT EXISTS` keeps the old
rows — so a second run over the first run's store starts from a non-empty
`FusionAll` and ingests the same physical CSV row a second time: one row
after the first run, two (the duplicated data under distinct surrogate
ids) after the second. -/
theorem c3_counterexample :
    ((create_db_main none c3In).bind (fun s1 =>
        (create_db_main (some s1) c3In).map (fun s2 =>
          (s1.fusionAll.rows.length, s2.fusionAll.rows.length,
           decide (s2.fusionAll.rows.map Prod.snd =
             s1.fusionAll.rows.map Prod.snd ++ s1.fusionAll.rows.map Prod.snd)))))
      = some (1, 2, true) := by
  decide

/-- Claim C3 as amended: the `rebuild_db.py` orchestrator does delete the
prior store before creating and loading, so every table is empty when its
load begins and the result never depends on the prior store; the
`create_db.py` script, by contrast, appends to an existing store
(the counterexample above). -/
theorem c3_amended_rebuild_starts_empty (prev : Option RebuildStore)
    (inputs : RebuildInputs) :
    create_tables_fresh (delete_database prev) = .ok ⟨[], [], [], [], [], [], []⟩
    ∧ rebuild_main prev inputs = rebuild_main none inputs := by
  constructor
  · rw [delete_database_eq_none]
    rfl
  · unfold rebuild_main
    simp only [delete_database_eq_none]

/-! ### Claim C6 — numeric conversion never truncates? -/

/-- A fusion CSV row whose proton-number cell `Z1` holds the fractional
numeral `1.5`. -/
def c6Row : FusionCsvRow :=
  ⟨"H", "1", "1.5", "H", "2", "1", "H", "3", "1", "5.0"⟩

/-- Claim C6, refuted: the fractional string `1.5` in the integer-valued
proton-number column is *not* an error — `int(float('1.5'))` silently
truncates it to `1` and the row loads — although its numeric value is
`3/2`.  (A genuinely malformed string such as `abc` does raise.) -/
theorem c6_counterexample :
    loadIntField "1.5" = some 1
    ∧ loadRealField "1.5" = some (mkRat 3 2)
    ∧ (convertFusionRow c6Row).map (·.Z1) = some 1
    ∧ loadIntField "abc" = none := by
  decide

/-- Claim C6 as amended: the loader's conversion distinguishes
integer-valued from real-valued columns and fails loudly on a string that
is no decimal numeral — but a fractional numeral in an integer column is
accepted and truncated toward zero by `int(float(...))`, not rejected. -/
theorem c6_amended_numeric_parse (s : String) :
    (pyFloat s = none → loadIntField s = none ∧ loadRealField s = none)
    ∧ (∀ q : ℚ, pyFloat s = some q →
        loadIntField s = some (pyTrunc q) ∧ loadRealField s = some q) := by
  constructor
  · intro h
    simp [loadIntField, loadRealField, h]
  · intro q h
    simp [loadIntField, loadRealField, h]

/-! ### Claim C8 — reported row count equals rows written -/

/-- A `FusionAll` data row already present from an earlier
`create_db.py` run. -/
def c8PrevRow : FusionDataRow :=
  ⟨"H", 1, 1, "H", 1, 2, "H", 1, 3, mkRat 5494 1000,
   "none", "b", "b", "b", "b", "b", "b", 0⟩

/-- `FusionAll` as a second run finds it: one row, next surrogate id 2. -/
def c8T0 : AutoTable FusionDataRow := ⟨[(1, c8PrevRow)], 2⟩

/-- The two-row fusion CSV of the second run. -/
def c8Csv : List FusionCsvRow :=
  [⟨"H", "1", "1", "H", "2", "1", "H", "3", "1", "5.494"⟩,
   ⟨"H", "2", "1", "H", "2", "1", "He", "4", "2", "23.8"⟩]

/-- Claim C8 at the failing input: loading a 2-row CSV into a `FusionAll`
that already holds one row under surrogate id 1 inserts 2 rows, but the
count the loader prints — `cursor.lastrowid` — is 3, so the reported
count equals neither the rows inserted nor the CSV's data rows.
(`rebuild_db.py`'s `import_csv` counts correctly; `create_db.py`'s
`load_fusion_data` reports the last surrogate id instead.) -/
theorem c8_lastrowid_report :
    (load_fusion_data c8T0 c8Csv).map
        (fun p => (p.2, p.1.rows.length - c8T0.rows.length, c8Csv.length))
      = some (some 3, 2, 2) := by
  decide

/-! ### Claim C10 — `ElementsPlus` keeps one row per proton number -/

/-- One `INSERT OR IGNORE` preserves "at most one row per `Z`". -/
theorem insert_or_ignore_count (t : List ElementsPlusRow) (z : ℤ) (e : String)
    (w : ℤ) (h : (t.filter (fun r => r.Z = w)).length ≤ 1) :
    ((insert_or_ignore_element t z e).filter (fun r => r.Z = w)).length ≤ 1 := by
  unfold insert_or_ignore_element
  split_ifs with hz
  · exact h
  · rw [List.filter_append, List.length_append]
    simp only [List.any_eq_true, decide_eq_true_eq, not_exists, not_and] at hz
    by_cases hzw : z = w
    · subst hzw
      have ht : t.filter (fun r => decide (r.Z = z)) = [] := by
        rw [List.filter_eq_nil_iff]
        intro r hr
        simpa using hz r hr
      rw [ht]
      simp
    · have hone : ([(⟨z, e, e, 1, 1⟩ : ElementsPlusRow)].filter
          (fun r => decide (r.Z = w))) = [] := by
        simp [hzw]
      rw [hone]
      simpa using h

/-- Every row the insertion loop produces is either pre-existing or the
image `⟨Z, E, EName, Period, Group⟩ = ⟨p.2, p.1, p.1, 1, 1⟩` of one of
the fetched pairs. -/
theorem populate_elements_rows_from_pairs (pairs : List (String × ℤ))
    (t : List ElementsPlusRow) :
    ∀ r ∈ populate_elements t pairs,
      r ∈ t ∨ ∃ p ∈ pairs, r = ⟨p.2, p.1, p.1, 1, 1⟩ := by
  induction pairs generalizing t with
  | nil =>
    intro r hr
    exact .inl hr
  | cons p ps ih =>
    intro r hr
    have hr2 : r ∈ populate_elements (insert_or_ignore_element t p.2 p.1) ps := hr
    rcases ih _ r hr2 with h | ⟨q, hq, rfl⟩
    · unfold insert_or_ignore_element at h
      split_ifs at h with hz
      · exact .inl h
      · rcases List.mem_append.mp h with h | h
        · exact .inl h
        · exact .inr ⟨p, List.mem_cons_self p ps, List.mem_singleton.mp h⟩
    · exact .inr ⟨q, List.mem_cons_of_mem p hq, rfl⟩

/-- The whole insertion loop preserves "at most one row per `Z`". -/
theorem populate_elements_count (pairs : List (String × ℤ))
    (t : List ElementsPlusRow) (w : ℤ)
    (h : (t.filter (fun r => r.Z = w)).length ≤ 1) :
    ((populate_elements t pairs).filter (fun r => r.Z = w)).length ≤ 1 := by
  induction pairs generalizing t with
  | nil => exact h
  | cons p ps ih => exact ih _ (insert_or_ignore_count t p.2 p.1 w h)

/-- Claim C10, confirmed: after `populate_elements` fills a fresh
`ElementsPlus`, the table holds at most one row per proton number — the
insert is `INSERT OR IGNORE` keyed on the `Z` primary key — so when two
distinct symbols occur in the reaction data only with the same `Z` (as
the hydrogen aliases `H`, `D`, `T` do with `Z = 1`), at most one of them
is stored and symbol-level referential completeness fails by
construction. -/
theorem c10_one_symbol_per_proton_number (pairs : List (String × ℤ))
    (e1 e2 : String) (z : ℤ) (h12 : e1 ≠ e2)
    (h1 : ∀ p ∈ pairs, p.1 = e1 → p.2 = z)
    (h2 : ∀ p ∈ pairs, p.1 = e2 → p.2 = z) :
    (∀ w : ℤ, ((populate_elements [] pairs).filter (fun r => r.Z = w)).length ≤ 1)
    ∧ ¬(e1 ∈ (populate_elements [] pairs).map (·.E)
        ∧ e2 ∈ (populate_elements [] pairs).map (·.E)) := by
  have hcount : ∀ w : ℤ,
      ((populate_elements [] pairs).filter (fun r => r.Z = w)).length ≤ 1 :=
    fun w => populate_elements_count pairs [] w (by simp)
  refine ⟨hcount, ?_⟩
  rintro ⟨hm1, hm2⟩
  obtain ⟨r1, hr1, hE1⟩ := List.mem_map.mp hm1
  obtain ⟨r2, hr2, hE2⟩ := List.mem_map.mp hm2
  have hz1 : r1.Z = z := by
    rcases populate_elements_rows_from_pairs pairs [] r1 hr1 with h | ⟨p, hp, rfl⟩
    · simp at h
    · exact h1 p hp hE1
  have hz2 : r2.Z = z := by
    rcases populate_elements_rows_from_pairs pairs [] r2 hr2 with h | ⟨p, hp, rfl⟩
    · simp at h
    · exact h2 p hp hE2
  have hne : r2 ≠ r1 := fun he => h12 (by rw [← hE1, ← hE2, he])
  have hm1f : r1 ∈ (populate_elements [] pairs).filter (fun r => r.Z = z) :=
    List.mem_filter.mpr ⟨hr1, by simp [hz1]⟩
  have hm2f : r2 ∈ (populate_elements [] pairs).filter (fun r => r.Z = z) :=
    List.mem_filter.mpr ⟨hr2, by simp [hz2]⟩
  have hmem : r2 ∈ ((populate_elements [] pairs).filter
      (fun r => r.Z = z)).erase r1 := (List.mem_erase_of_ne hne).mpr hm2f
  have hlen := List.length_erase_of_mem hm1f
  have hpos := List.length_pos_of_mem hmem
  have hle := hcount z
  omega

/-- The distinct `(E, Z)` pairs the hydrogen aliases contribute. -/
def c10Pairs : List (String × ℤ) := [("H", 1), ("D", 1), ("T", 1)]

/-- C10 at the hydrogen aliases: the loop stores only `H` under `Z = 1`,
and the theorem rules out `D` and `T` both being present. -/
theorem c10_witness :
    populate_elements [] c10Pairs = [⟨1, "H", "H", 1, 1⟩]
    ∧ ((∀ w : ℤ, ((populate_elements [] c10Pairs).filter
          (fun r => r.Z = w)).length ≤ 1)
       ∧ ¬("D" ∈ (populate_elements [] c10Pairs).map (·.E)
           ∧ "T" ∈ (populate_elements [] c10Pairs).map (·.E))) :=
  ⟨by decide,
   c10_one_symbol_per_proton_number c10Pairs "D" "T" 1
     (by decide) (by decide) (by decide)⟩
